import Mathlib

/-!
Shallow embedding of `AccessApprovalGrpcTransport`
(`src/google/cloud/accessapproval_v1/services/access_approval/transports/grpc.py`).

The transport wires credentials and a gRPC channel for the AccessApproval
service and lazily builds a per-operation dispatch table of bound callables.
External collaborators (the `google.auth` credential discovery, the
`grpc_helpers` channel factory, `grpc` SSL credential assembly) are modelled
by their documented contracts; channels and stubs are modelled as records of
the arguments they were built from.  Effectful calls additionally return a
`Trace` recording which collaborator calls occurred, so that "never invoked"
style properties are expressible.
-/

/-- Decidable equality of `Except` results (used to state counterexamples). -/
instance {ε α : Type} [DecidableEq ε] [DecidableEq α] : DecidableEq (Except ε α) := fun a b =>
  match a, b with
  | .error x, .error y =>
      if h : x = y then .isTrue (congrArg Except.error h)
      else .isFalse fun hc => h (Except.error.inj hc)
  | .ok x, .ok y =>
      if h : x = y then .isTrue (congrArg Except.ok h)
      else .isFalse fun hc => h (Except.ok.inj hc)
  | .error _, .ok _ => .isFalse fun hc => Except.noConfusion hc
  | .ok _, .error _ => .isFalse fun hc => Except.noConfusion hc

/-- An opaque authentication credentials object (`google.auth.credentials.Credentials`). -/
structure Cred where
  id : Nat
deriving DecidableEq, Repr

/-- The Python `credentials` argument: `None`, the `False` sentinel that the
transport assigns when a channel is injected, or an actual credentials object. -/
inductive CredArg where
  | noneArg : CredArg
  | falseArg : CredArg
  | credObj : Cred → CredArg
deriving DecidableEq, Repr

/-- Python truthiness of the `credentials` argument: only an actual
credentials object is truthy (`None` and `False` are falsy). -/
def CredArg.isTruthy : CredArg → Bool
  | .credObj _ => true
  | _ => false

/-- The ambient process environment seen by the authentication subsystem:
optionally discoverable ambient default credentials, and the credentials that
`google.auth.load_credentials_from_file` would load from a given file path. -/
structure Env where
  ambient : Option Cred
  fileCred : String → Cred

/-- Errors surfaced during construction, named after the Python exceptions
documented in the source (`google.api_core.exceptions.DuplicateCredentialArgs`,
`google.auth.exceptions.DefaultCredentialsError`,
`google.auth.exceptions.MutualTLSChannelError`). -/
inductive PyErr where
  | duplicateCredentialArgs : PyErr
  | defaultCredentialsError : PyErr
  | mutualTLSChannelError : PyErr
deriving DecidableEq, Repr

/-- Transport-security credentials: built from a client certificate/key pair
(`grpc.ssl_channel_credentials(certificate_chain=..., private_key=...)`) or the
application-default SSL credentials (`SslCredentials().ssl_credentials`). -/
inductive SslCreds where
  | fromCert : String → String → SslCreds
  | adc : SslCreds
deriving DecidableEq, Repr

/-- The configuration a created channel was built from: the arguments the
channel factory received (credentials after any resolution it performed). -/
structure ChannelConfig where
  host : String
  credentials : Option Cred
  credentials_file : Option String
  ssl_credentials : Option SslCreds
  scopes : List String
  quota_project_id : Option String
deriving DecidableEq, Repr

/-- A gRPC channel: either injected by the caller (identified opaquely) or
created by the channel factory with a recorded configuration. -/
inductive Channel where
  | injected : Nat → Channel
  | created : ChannelConfig → Channel
deriving DecidableEq, Repr

/-- A record of external collaborator calls made during an operation:
the argument pairs (scopes, quota project) of each `auth.default` call, the
number of `create_channel` calls, and the number of `client_cert_source`
callback invocations. -/
structure Trace where
  authDefault : List (List String × Option String)
  createChannelCalls : Nat
  certSourceCalls : Nat
deriving DecidableEq, Repr

def Trace.empty : Trace := ⟨[], 0, 0⟩

def Trace.add (a b : Trace) : Trace :=
  ⟨a.authDefault ++ b.authDefault, a.createChannelCalls + b.createChannelCalls,
    a.certSourceCalls + b.certSourceCalls⟩

/-- A dispatch-table entry: the bound callable returned by
`channel.unary_unary(path, request_serializer, response_deserializer)`,
modelled as the record of what it was bound to. -/
structure Stub where
  channel : Channel
  path : String
  request_serializer : String
  response_deserializer : String
deriving DecidableEq, Repr

/-- `channel.unary_unary(...)`: binds a unary call on a channel. -/
def unary_unary (ch : Channel) (path ser deser : String) : Stub :=
  ⟨ch, path, ser, deser⟩

/-- The state of an `AccessApprovalGrpcTransport` instance:
`self._host`, `self._credentials` (as stored by the base constructor),
`self._grpc_channel` (`none` models the attribute being absent), and
`self._stubs`. -/
structure TransportState where
  host : String
  credentials : Option Cred
  grpc_channel : Option Channel
  stubs : List (String × Stub)
deriving DecidableEq, Repr

/-- Python dict lookup on the `_stubs` mapping (`name in self._stubs` /
`self._stubs[name]`). -/
def dictGet (d : List (String × Stub)) (k : String) : Option Stub :=
  match d with
  | [] => none
  | (k', v) :: rest => if k' = k then some v else dictGet rest k

/-- Python `scopes or default`: `None` and the empty list are falsy. -/
def pyOr (scopes : Option (List String)) (dflt : List String) : List String :=
  match scopes with
  | some l => if l.isEmpty then dflt else l
  | none => dflt

/-- Python's `":" in api_mtls_endpoint`: substring membership, which for the
one-character needle `":"` is membership of `':'` among the string's characters. -/
def containsColon (e : String) : Bool := e.data.contains ':'

/-- Python truthiness of an optional string argument (`elif api_mtls_endpoint:`):
`None` and the empty string are falsy. -/
def pyStr (s : Option String) : Option String :=
  match s with
  | some s => if s = "" then none else some s
  | none => none

/-- The `False` sentinel stored in `self._credentials` is modelled as `none`;
an actual stored credentials object as `some`.  Converts the stored value back
to the argument form for the lazy `create_channel` call. -/
def credArgOfOpt : Option Cred → CredArg
  | some c => .credObj c
  | none => .noneArg

/-- Modelled from the spec: the process-wide default scope list
(`AUTH_SCOPES` on the base transport class, which is not under `src/`);
the spec describes it as a static, process-wide constant. -/
def AUTH_SCOPES : List String := ["https://www.googleapis.com/auth/cloud-platform"]

/-- `google.auth.default(scopes=..., quota_project_id=...)`: ambient-environment
credential discovery (external collaborator, modelled from its documented
contract).  Returns the ambient credentials, recording the call and the scopes
and quota project it was given; raises `DefaultCredentialsError` when the
environment has no discoverable credentials. -/
def authDefault (env : Env) (scopes : List String) (quota_project_id : Option String) :
    Except PyErr (Cred × Trace) :=
  match env.ambient with
  | some c => .ok (c, ⟨[(scopes, quota_project_id)], 0, 0⟩)
  | none => .error .defaultCredentialsError

/-- `grpc_helpers.create_channel` (external collaborator, modelled from the
contract documented in the source's `create_channel` docstring): `credentials`
and `credentials_file` are mutually exclusive (`DuplicateCredentialArgs`);
a credentials file is loaded; otherwise explicit credentials are used; with
neither, the scopes are passed to `google.auth.default` for ambient discovery.
The resulting channel records the configuration it was built from. -/
def grpcHelpersCreateChannel (host : String) (credentials : CredArg)
    (credentials_file : Option String) (ssl_credentials : Option SslCreds)
    (scopes : List String) (quota_project_id : Option String) (env : Env) :
    Except PyErr (Channel × Trace) :=
  if credentials.isTruthy ∧ credentials_file.isSome then
    .error .duplicateCredentialArgs
  else
    match credentials_file with
    | some f =>
        .ok (.created ⟨host, some (env.fileCred f), some f, ssl_credentials,
              scopes, quota_project_id⟩, Trace.empty)
    | none =>
        match credentials with
        | .credObj c =>
            .ok (.created ⟨host, some c, none, ssl_credentials, scopes,
                  quota_project_id⟩, Trace.empty)
        | _ =>
            match authDefault env scopes quota_project_id with
            | .error e => .error e
            | .ok (c, t) =>
                .ok (.created ⟨host, some c, none, ssl_credentials, scopes,
                      quota_project_id⟩, t)

/-- `AccessApprovalGrpcTransport.create_channel` (classmethod, lines 179-222):
applies `scopes = scopes or cls.AUTH_SCOPES` and delegates to
`grpc_helpers.create_channel`, forwarding ssl credentials through `**kwargs`.
The trace counts this call. -/
def create_channel (host : String) (credentials : CredArg)
    (credentials_file : Option String) (scopes : Option (List String))
    (quota_project_id : Option String) (ssl_credentials : Option SslCreds)
    (env : Env) : Except PyErr (Channel × Trace) :=
  match grpcHelpersCreateChannel host credentials credentials_file ssl_credentials
      (pyOr scopes AUTH_SCOPES) quota_project_id env with
  | .error e => .error e
  | .ok (ch, t) => .ok (ch, Trace.add ⟨[], 1, 0⟩ t)

/-- Modelled from the spec: the base transport constructor
(`AccessApprovalTransport.__init__` in `transports/base.py`, which is not
under `src/`).  Per the spec's credential-resolver contract: supplying both
explicit credentials and a credentials-file path is a configuration error
(`DuplicateCredentialArgs`); a credentials file alone loads credentials from
the file; with neither, resolution falls back to ambient default discovery
constrained to the given scopes, failing with an authentication error
(`DefaultCredentialsError`) when no ambient credentials are discoverable; and
when the gRPC transport has discarded the credentials argument because an
explicit channel was supplied (the `False` sentinel), credential resolution is
skipped entirely.  The spec does not specify host normalization here, so the
host is stored as given (by the caller `transportInit`).  Returns the stored
`self._credentials`. -/
def baseInit (credentials : CredArg) (credentials_file : Option String)
    (scopes : List String) (quota_project_id : Option String) (env : Env) :
    Except PyErr (Option Cred × Trace) :=
  match credentials with
  | .falseArg => .ok (none, Trace.empty)
  | .credObj c =>
      if credentials_file.isSome then .error .duplicateCredentialArgs
      else .ok (some c, Trace.empty)
  | .noneArg =>
      match credentials_file with
      | some f => .ok (some (env.fileCred f), Trace.empty)
      | none =>
          match authDefault env scopes quota_project_id with
          | .error e => .error e
          | .ok (c, t) => .ok (some c, t)

/-- `AccessApprovalGrpcTransport.__init__` (lines 83-177).
If a channel is provided: discard the credentials argument (`credentials =
False`) and take the channel as `self._grpc_channel`.  Otherwise, if a (truthy)
`api_mtls_endpoint` is given: rewrite the host (appending `":443"` when the
endpoint has no `":"`), resolve credentials via `auth.default(scopes=
self.AUTH_SCOPES, quota_project_id=...)` when `credentials is None`, assemble
SSL credentials from `client_cert_source` or application defaults, and create
the channel eagerly via `type(self).create_channel(...)`.  In all cases,
initialize `self._stubs = {}` and run the base constructor with
`scopes = scopes or self.AUTH_SCOPES`. -/
def transportInit (host : String) (credentials : CredArg)
    (credentials_file : Option String) (scopes : Option (List String))
    (channel : Option Channel) (api_mtls_endpoint : Option String)
    (client_cert_source : Option (String × String))
    (quota_project_id : Option String) (env : Env) :
    Except PyErr (TransportState × Trace) :=
  match channel with
  | some ch =>
      match baseInit .falseArg credentials_file (pyOr scopes AUTH_SCOPES)
          quota_project_id env with
      | .error e => .error e
      | .ok (credsStored, t) =>
          .ok ({ host := host, credentials := credsStored,
                 grpc_channel := some ch, stubs := [] }, t)
  | none =>
      match pyStr api_mtls_endpoint with
      | some e =>
          let host' := if containsColon e then e else e ++ ":443"
          match (match credentials with
                 | .noneArg =>
                     (match authDefault env AUTH_SCOPES quota_project_id with
                      | .error er => .error er
                      | .ok (c, t) => .ok (CredArg.credObj c, t))
                 | c => .ok (c, Trace.empty) :
                   Except PyErr (CredArg × Trace)) with
          | .error er => .error er
          | .ok (creds', t1) =>
              let sslt : SslCreds × Trace :=
                match client_cert_source with
                | some (cert, key) => (.fromCert cert key, ⟨[], 0, 1⟩)
                | none => (.adc, Trace.empty)
              match create_channel host' creds' credentials_file
                  (some (pyOr scopes AUTH_SCOPES)) quota_project_id
                  (some sslt.1) env with
              | .error er => .error er
              | .ok (ch, t2) =>
                  match baseInit creds' credentials_file
                      (pyOr scopes AUTH_SCOPES) quota_project_id env with
                  | .error er => .error er
                  | .ok (credsStored, t3) =>
                      .ok ({ host := host', credentials := credsStored,
                             grpc_channel := some ch, stubs := [] },
                           Trace.add t1 (Trace.add sslt.2 (Trace.add t2 t3)))
      | none =>
          match baseInit credentials credentials_file (pyOr scopes AUTH_SCOPES)
              quota_project_id env with
          | .error e => .error e
          | .ok (credsStored, t) =>
              .ok ({ host := host, credentials := credsStored,
                     grpc_channel := none, stubs := [] }, t)

/-- The `grpc_channel` property (lines 224-239): create a channel via
`self.create_channel(self._host, credentials=self._credentials)` only when the
`_grpc_channel` attribute does not exist yet, then return the cached channel.
Returns the channel together with the (possibly updated) instance state. -/
def grpcChannelProp (s : TransportState) (env : Env) :
    Except PyErr (Channel × TransportState × Trace) :=
  match s.grpc_channel with
  | some ch => .ok (ch, s, Trace.empty)
  | none =>
      match create_channel s.host (credArgOfOpt s.credentials) none none none
          none env with
      | .error e => .error e
      | .ok (ch, t) => .ok (ch, { s with grpc_channel := some ch }, t)

/-- The common shape of the seven stub properties (e.g. lines 241-271): if the
operation name is not in `self._stubs`, bind
`self.grpc_channel.unary_unary(path, request_serializer, response_deserializer)`
and store it under the name; return `self._stubs[name]`. -/
def stubAccess (s : TransportState) (env : Env) (name path ser deser : String) :
    Except PyErr (Stub × TransportState × Trace) :=
  match dictGet s.stubs name with
  | some st => .ok (st, s, Trace.empty)
  | none =>
      match grpcChannelProp s env with
      | .error e => .error e
      | .ok (ch, s1, t1) =>
          let st := unary_unary ch path ser deser
          .ok (st, { s1 with stubs := (name, st) :: s1.stubs }, t1)

/-- Property `list_approval_requests` (lines 241-271). -/
def list_approval_requests (s : TransportState) (env : Env) :
    Except PyErr (Stub × TransportState × Trace) :=
  stubAccess s env "list_approval_requests"
    "/google.cloud.accessapproval.v1.AccessApproval/ListApprovalRequests"
    "accessapproval.ListApprovalRequestsMessage.serialize"
    "accessapproval.ListApprovalRequestsResponse.deserialize"

/-- Property `get_approval_request` (lines 273-300). -/
def get_approval_request (s : TransportState) (env : Env) :
    Except PyErr (Stub × TransportState × Trace) :=
  stubAccess s env "get_approval_request"
    "/google.cloud.accessapproval.v1.AccessApproval/GetApprovalRequest"
    "accessapproval.GetApprovalRequestMessage.serialize"
    "accessapproval.ApprovalRequest.deserialize"

/-- Property `approve_approval_request` (lines 302-332). -/
def approve_approval_request (s : TransportState) (env : Env) :
    Except PyErr (Stub × TransportState × Trace) :=
  stubAccess s env "approve_approval_request"
    "/google.cloud.accessapproval.v1.AccessApproval/ApproveApprovalRequest"
    "accessapproval.ApproveApprovalRequestMessage.serialize"
    "accessapproval.ApprovalRequest.deserialize"

/-- Property `dismiss_approval_request` (lines 334-369). -/
def dismiss_approval_request (s : TransportState) (env : Env) :
    Except PyErr (Stub × TransportState × Trace) :=
  stubAccess s env "dismiss_approval_request"
    "/google.cloud.accessapproval.v1.AccessApproval/DismissApprovalRequest"
    "accessapproval.DismissApprovalRequestMessage.serialize"
    "accessapproval.ApprovalRequest.deserialize"

/-- Property `get_access_approval_settings` (lines 371-399). -/
def get_access_approval_settings (s : TransportState) (env : Env) :
    Except PyErr (Stub × TransportState × Trace) :=
  stubAccess s env "get_access_approval_settings"
    "/google.cloud.accessapproval.v1.AccessApproval/GetAccessApprovalSettings"
    "accessapproval.GetAccessApprovalSettingsMessage.serialize"
    "accessapproval.AccessApprovalSettings.deserialize"

/-- Property `update_access_approval_settings` (lines 401-433). -/
def update_access_approval_settings (s : TransportState) (env : Env) :
    Except PyErr (Stub × TransportState × Trace) :=
  stubAccess s env "update_access_approval_settings"
    "/google.cloud.accessapproval.v1.AccessApproval/UpdateAccessApprovalSettings"
    "accessapproval.UpdateAccessApprovalSettingsMessage.serialize"
    "accessapproval.AccessApprovalSettings.deserialize"

/-- Property `delete_access_approval_settings` (lines 435-469). -/
def delete_access_approval_settings (s : TransportState) (env : Env) :
    Except PyErr (Stub × TransportState × Trace) :=
  stubAccess s env "delete_access_approval_settings"
    "/google.cloud.accessapproval.v1.AccessApproval/DeleteAccessApprovalSettings"
    "accessapproval.DeleteAccessApprovalSettingsMessage.serialize"
    "empty.Empty.FromString"

/-- The common wire-path prefix of the service's methods. -/
def accessApprovalServicePrefix : String :=
  "/google.cloud.accessapproval.v1.AccessApproval/"

/-- The wire operation names of the dispatch entries, in source order. -/
def opMethodNames : List String :=
  ["ListApprovalRequests", "GetApprovalRequest", "ApproveApprovalRequest",
   "DismissApprovalRequest", "GetAccessApprovalSettings",
   "UpdateAccessApprovalSettings", "DeleteAccessApprovalSettings"]

/-- A fresh transport state with an injected channel and empty dispatch table,
used to probe the stub properties. -/
def probeState : TransportState :=
  { host := "accessapproval.googleapis.com", credentials := none,
    grpc_channel := some (Channel.injected 0), stubs := [] }

/-- A probe environment (never consulted when probing with an injected channel). -/
def probeEnv : Env := ⟨none, fun _ => ⟨0⟩⟩

/-- A probe environment in which ambient default credentials are discoverable. -/
def envAmbient : Env := ⟨some ⟨9⟩, fun _ => ⟨0⟩⟩

/-- The wire method path each of the seven stub properties binds on a fresh
instance, in source order. -/
def dispatchPaths : List (Option String) :=
  [list_approval_requests, get_approval_request, approve_approval_request,
   dismiss_approval_request, get_access_approval_settings,
   update_access_approval_settings, delete_access_approval_settings].map
    fun f => (f probeState probeEnv).toOption.map fun r => r.1.path

/-- The configuration of the channel built eagerly in the mtls branch of the
constructor, for explicit credentials and no credentials file. -/
def eagerConfig (host : String) (c : Cred) (scopes : Option (List String))
    (cert : Option (String × String)) (quota : Option String) (e : String)
    (env : Env) : Option ChannelConfig :=
  match transportInit host (.credObj c) none scopes none (some e) cert quota env with
  | .ok (st, _) =>
      match st.grpc_channel with
      | some (.created cfg) => some cfg
      | _ => none
  | .error _ => none

/-- The configuration of the channel built lazily by the `grpc_channel`
property after a plain construction (no channel, no mtls endpoint), for
explicit credentials and no credentials file. -/
def lazyConfig (host : String) (c : Cred) (scopes : Option (List String))
    (quota : Option String) (env : Env) : Option ChannelConfig :=
  match transportInit host (.credObj c) none scopes none none none quota env with
  | .ok (st, _) =>
      match grpcChannelProp st env with
      | .ok (.created cfg, _, _) => some cfg
      | _ => none
  | .error _ => none

/-! ## Theorems -/

/-- **C3**: For every construction in which the caller supplies a pre-built
channel, the transport performs no credential resolution and no channel
construction: the supplied channel becomes the instance's channel, ambient
credential discovery (`auth.default`) is never invoked (the trace records no
such call) and `create_channel` is never called (the trace's call count is 0):
the result is exactly the injected-channel state with the empty trace. -/
theorem injected_channel_skips_construction (host : String) (credentials : CredArg)
    (credentials_file : Option String) (scopes : Option (List String)) (ch : Channel)
    (api_mtls_endpoint : Option String) (cert : Option (String × String))
    (quota : Option String) (env : Env) :
    transportInit host credentials credentials_file scopes (some ch)
        api_mtls_endpoint cert quota env
      = .ok ({ host := host, credentials := none, grpc_channel := some ch,
               stubs := [] }, Trace.empty) := rfl

/-- **C9**: For every construction in which both a pre-built channel and an
`api_mtls_endpoint` are supplied, the injected channel takes precedence and the
mutual-TLS path is skipped entirely: the host is not rewritten (the state's
host is the argument host), the `client_cert_source` callback is never invoked
and no SSL credentials are assembled (the trace is empty), and the injected
channel is the instance's channel. -/
theorem injected_channel_overrides_mtls (host : String) (credentials : CredArg)
    (credentials_file : Option String) (scopes : Option (List String)) (ch : Channel)
    (e : String) (cert : Option (String × String)) (quota : Option String)
    (env : Env) :
    transportInit host credentials credentials_file scopes (some ch) (some e)
        cert quota env
      = .ok ({ host := host, credentials := none, grpc_channel := some ch,
               stubs := [] }, Trace.empty) := rfl

/-- **C10**: When a pre-built channel is supplied, the constructed transport
does not depend on the credentials argument: any two constructions identical
except for the credentials value produce identical results, because the
credentials argument is discarded (overwritten with `False`) before the base
constructor runs. -/
theorem injected_channel_credential_independence (host : String) (c1 c2 : CredArg)
    (credentials_file : Option String) (scopes : Option (List String)) (ch : Channel)
    (api_mtls_endpoint : Option String) (cert : Option (String × String))
    (quota : Option String) (env : Env) :
    transportInit host c1 credentials_file scopes (some ch) api_mtls_endpoint
        cert quota env
      = transportInit host c2 credentials_file scopes (some ch) api_mtls_endpoint
        cert quota env := rfl

/-- **C5** (counterexample): the transport does not define exactly six dispatch
entries — probing every stub property of the transport yields seven paths. -/
theorem dispatch_table_not_six : dispatchPaths.length ≠ 6 := by decide

/-- **C5** (amended): the transport defines exactly seven dispatch entries
(list, get, approve, dismiss, get-settings, update-settings, delete-settings),
and each entry's wire method path is a distinct string of the form
`/google.cloud.accessapproval.v1.AccessApproval/<OperationName>`, with no two
operations sharing a path. -/
theorem dispatch_table_seven_distinct_paths :
    dispatchPaths.length = 7 ∧
    dispatchPaths = opMethodNames.map (fun op => some (accessApprovalServicePrefix ++ op)) ∧
    dispatchPaths.Nodup := by
  refine ⟨by decide, by decide, by decide⟩

/-- **C1** (counterexample): constructing the transport with both explicit
credentials and a credentials-file path does *not* raise
`DuplicateCredentialArgs` when a pre-built channel is also supplied — the
construction succeeds, because the channel branch discards the credentials
argument before the base constructor's mutual-exclusion check. -/
theorem duplicate_credentials_with_channel_not_rejected :
    transportInit "accessapproval.googleapis.com" (.credObj ⟨1⟩)
        (some "credentials.json") none (some (Channel.injected 0)) none none none
        probeEnv
      ≠ Except.error PyErr.duplicateCredentialArgs := by decide

/-- **C1** (amended): for every combination of the other construction
parameters, constructing with both an explicit credentials object and a
credentials-file path raises `DuplicateCredentialArgs` when no pre-built
channel is supplied (both in the plain branch, via the base constructor, and
in the mutual-TLS branch, via the channel factory); when a pre-built channel
is also supplied, the credentials argument is discarded and the construction
succeeds without a configuration error. -/
theorem duplicate_credentials_rejected (host : String) (c : Cred) (f : String)
    (scopes : Option (List String)) (api_mtls_endpoint : Option String)
    (cert : Option (String × String)) (quota : Option String) (env : Env)
    (ch : Channel) :
    transportInit host (.credObj c) (some f) scopes none api_mtls_endpoint
        cert quota env
      = .error .duplicateCredentialArgs ∧
    transportInit host (.credObj c) (some f) scopes (some ch) api_mtls_endpoint
        cert quota env
      = .ok ({ host := host, credentials := none, grpc_channel := some ch,
               stubs := [] }, Trace.empty) := by
  constructor
  · cases hm : pyStr api_mtls_endpoint with
    | none =>
        simp [transportInit, hm, baseInit]
    | some e =>
        cases cert with
        | none =>
            simp [transportInit, hm, create_channel, grpcHelpersCreateChannel,
              CredArg.isTruthy]
        | some p =>
            obtain ⟨crt, key⟩ := p
            simp [transportInit, hm, create_channel, grpcHelpersCreateChannel,
              CredArg.isTruthy]
  · rfl

/-- **C2**: for every transport instance and every operation name, the
dispatch-table entry is created and stored in `_stubs` on the first access,
and every later access returns the stored entry unchanged, without
constructing a new one or replacing the existing one: after any successful
access the entry is in the table, and accessing again returns the very same
stub with the state unchanged and no collaborator calls. -/
theorem stub_access_caching (s : TransportState) (env : Env)
    (name path ser deser : String) (st : Stub) (s' : TransportState) (t : Trace)
    (h : stubAccess s env name path ser deser = .ok (st, s', t)) :
    dictGet s'.stubs name = some st ∧
    stubAccess s' env name path ser deser = .ok (st, s', Trace.empty) := by
  unfold stubAccess at h
  cases hd : dictGet s.stubs name with
  | some st0 =>
      rw [hd] at h
      simp only [Except.ok.injEq, Prod.mk.injEq] at h
      obtain ⟨h1, h2, h3⟩ := h
      subst h1; subst h2
      exact ⟨hd, by unfold stubAccess; rw [hd]⟩
  | none =>
      rw [hd] at h
      cases hc : grpcChannelProp s env with
      | error e => rw [hc] at h; exact absurd h (by simp)
      | ok r =>
          obtain ⟨ch, s1, t1⟩ := r
          rw [hc] at h
          simp only [Except.ok.injEq, Prod.mk.injEq] at h
          obtain ⟨h1, h2, h3⟩ := h
          subst h1; subst h2
          constructor
          · simp [dictGet]
          · unfold stubAccess
            simp [dictGet]

/-- Witness for `stub_access_caching`: a concrete first access on a fresh
instance with an injected channel, and the cached second access. -/
theorem stub_access_caching_witness :
    dictGet ({ host := "accessapproval.googleapis.com", credentials := none,
               grpc_channel := some (Channel.injected 0),
               stubs := [("op", unary_unary (Channel.injected 0) "p" "sr" "ds")] } :
               TransportState).stubs "op"
      = some (unary_unary (Channel.injected 0) "p" "sr" "ds") ∧
    stubAccess { host := "accessapproval.googleapis.com", credentials := none,
                 grpc_channel := some (Channel.injected 0),
                 stubs := [("op", unary_unary (Channel.injected 0) "p" "sr" "ds")] }
        probeEnv "op" "p" "sr" "ds"
      = .ok (unary_unary (Channel.injected 0) "p" "sr" "ds",
             { host := "accessapproval.googleapis.com", credentials := none,
               grpc_channel := some (Channel.injected 0),
               stubs := [("op", unary_unary (Channel.injected 0) "p" "sr" "ds")] },
             Trace.empty) :=
  stub_access_caching probeState probeEnv "op" "p" "sr" "ds"
    (unary_unary (Channel.injected 0) "p" "sr" "ds")
    { host := "accessapproval.googleapis.com", credentials := none,
      grpc_channel := some (Channel.injected 0),
      stubs := [("op", unary_unary (Channel.injected 0) "p" "sr" "ds")] }
    Trace.empty rfl

/-- **C8**: every transport instance holds at most one channel for its
lifetime: the `grpc_channel` property creates a channel only when none exists
yet (when one exists it is returned with the state unchanged), a successful
access caches the returned channel and every subsequent access returns the
same channel with the state unchanged, and a stub access never replaces an
existing channel. -/
theorem grpc_channel_caching (s : TransportState) (env : Env) :
    (∀ ch, s.grpc_channel = some ch →
      grpcChannelProp s env = .ok (ch, s, Trace.empty)) ∧
    (∀ ch s' t, grpcChannelProp s env = .ok (ch, s', t) →
      s'.grpc_channel = some ch ∧
      grpcChannelProp s' env = .ok (ch, s', Trace.empty)) ∧
    (∀ ch name path ser deser st s' t, s.grpc_channel = some ch →
      stubAccess s env name path ser deser = .ok (st, s', t) →
      s'.grpc_channel = some ch) := by
  refine ⟨?_, ?_, ?_⟩
  · intro ch hch
    unfold grpcChannelProp
    rw [hch]
  · intro ch s' t h
    unfold grpcChannelProp at h
    cases hch : s.grpc_channel with
    | some ch0 =>
        rw [hch] at h
        simp only [Except.ok.injEq, Prod.mk.injEq] at h
        obtain ⟨h1, h2, h3⟩ := h
        subst h1; subst h2
        exact ⟨hch, by unfold grpcChannelProp; rw [hch]⟩
    | none =>
        rw [hch] at h
        cases hc : create_channel s.host (credArgOfOpt s.credentials) none none
            none none env with
        | error e => rw [hc] at h; exact absurd h (by simp)
        | ok r =>
            obtain ⟨ch1, t1⟩ := r
            rw [hc] at h
            simp only [Except.ok.injEq, Prod.mk.injEq] at h
            obtain ⟨h1, h2, h3⟩ := h
            subst h1; subst h2
            refine ⟨rfl, ?_⟩
            unfold grpcChannelProp
            rfl
  · intro ch name path ser deser st s' t hch h
    unfold stubAccess at h
    cases hd : dictGet s.stubs name with
    | some st0 =>
        rw [hd] at h
        simp only [Except.ok.injEq, Prod.mk.injEq] at h
        obtain ⟨h1, h2, h3⟩ := h
        subst h2
        exact hch
    | none =>
        rw [hd] at h
        cases hc : grpcChannelProp s env with
        | error e => rw [hc] at h; exact absurd h (by simp)
        | ok r =>
            obtain ⟨ch1, s1, t1⟩ := r
            rw [hc] at h
            have hs1 : s1 = s := by
              unfold grpcChannelProp at hc
              rw [hch] at hc
              simp only [Except.ok.injEq, Prod.mk.injEq] at hc
              exact hc.2.1.symm
            simp only [Except.ok.injEq, Prod.mk.injEq] at h
            obtain ⟨h1, h2, h3⟩ := h
            subst h2
            simp [hs1, hch]

/-- Witness for `grpc_channel_caching`: on a concrete instance with an
injected channel, the property returns that channel with the state unchanged. -/
theorem grpc_channel_caching_witness :
    probeState.grpc_channel = some (Channel.injected 0) ∧
    grpcChannelProp probeState probeEnv
      = .ok (Channel.injected 0, probeState, Trace.empty) :=
  ⟨rfl, (grpc_channel_caching probeState probeEnv).1 (Channel.injected 0) rfl⟩

/-- Every channel the factory returns successfully is a created channel whose
recorded configuration carries exactly the factory's arguments (the host, the
credentials file, the ssl credentials, the post-default scope list and the
quota project), with some resolved credentials. -/
theorem create_channel_created (host : String) (credentials : CredArg)
    (credentials_file : Option String) (scopes : Option (List String))
    (quota : Option String) (ssl : Option SslCreds) (env : Env)
    (ch : Channel) (t : Trace)
    (h : create_channel host credentials credentials_file scopes quota ssl env
      = .ok (ch, t)) :
    ∃ cr, ch = Channel.created
      ⟨host, cr, credentials_file, ssl, pyOr scopes AUTH_SCOPES, quota⟩ := by
  unfold create_channel at h
  cases hg : grpcHelpersCreateChannel host credentials credentials_file ssl
      (pyOr scopes AUTH_SCOPES) quota env with
  | error e => rw [hg] at h; exact absurd h (by simp)
  | ok r =>
      obtain ⟨ch1, t1⟩ := r
      rw [hg] at h
      simp only [Except.ok.injEq, Prod.mk.injEq] at h
      obtain ⟨h1, h2⟩ := h
      subst h1
      unfold grpcHelpersCreateChannel at hg
      split at hg
      · exact absurd hg (by simp)
      · split at hg
        · simp only [Except.ok.injEq, Prod.mk.injEq] at hg
          exact ⟨_, hg.1.symm⟩
        · split at hg
          · simp only [Except.ok.injEq, Prod.mk.injEq] at hg
            exact ⟨_, hg.1.symm⟩
          · split at hg
            · exact absurd hg (by simp)
            · simp only [Except.ok.injEq, Prod.mk.injEq] at hg
              exact ⟨_, hg.1.symm⟩

/-- **C4** (counterexample): supplying the endpoint string `""` (which contains
no `":"` separator) does not yield `"" ++ ":443"` as the effective target host:
the empty string is falsy in `elif api_mtls_endpoint:`, so the mutual-TLS
branch is skipped and the original host is kept unchanged. -/
theorem mtls_empty_endpoint_not_rewritten :
    transportInit "accessapproval.googleapis.com" (.credObj ⟨1⟩) none none none
        (some "") none none probeEnv
      = .ok ({ host := "accessapproval.googleapis.com", credentials := some ⟨1⟩,
               grpc_channel := none, stubs := [] }, Trace.empty) ∧
    ("accessapproval.googleapis.com" : String) ≠ "" ++ ":443" := by
  refine ⟨rfl, by decide⟩

/-- **C4** (amended): for every successful construction with a *nonempty*
`api_mtls_endpoint` and no injected channel: if the endpoint string contains no
`":"` separator, the effective target host (both the stored host and the host
the channel was created with) equals the endpoint with `":443"` appended; if it
contains a `":"` separator, it equals the endpoint unmodified. -/
theorem mtls_host_rewrite (host : String) (credentials : CredArg)
    (credentials_file : Option String) (scopes : Option (List String))
    (cert : Option (String × String)) (quota : Option String) (env : Env)
    (e : String) (st : TransportState) (tr : Trace) (hne : e ≠ "")
    (h : transportInit host credentials credentials_file scopes none (some e)
        cert quota env = .ok (st, tr)) :
    st.host = (if containsColon e then e else e ++ ":443") ∧
    ∃ cfg, st.grpc_channel = some (Channel.created cfg) ∧
      cfg.host = (if containsColon e then e else e ++ ":443") := by
  unfold transportInit at h
  rw [show pyStr (some e) = some e from by simp [pyStr, hne]] at h
  dsimp only [] at h
  split at h
  · exact absurd h (by simp)
  · rename_i x1 creds' t1 hres
    split at h
    · exact absurd h (by simp)
    · rename_i x2 ch t2 hcc
      split at h
      · exact absurd h (by simp)
      · rename_i x3 credsStored t3 hbase
        simp only [Except.ok.injEq, Prod.mk.injEq] at h
        obtain ⟨h1, h2⟩ := h
        subst h1
        refine ⟨rfl, ?_⟩
        obtain ⟨cr, hch⟩ := create_channel_created _ _ _ _ _ _ _ _ _ hcc
        subst hch
        exact ⟨_, rfl, rfl⟩

/-- Witness for `mtls_host_rewrite`: a concrete successful mutual-TLS
construction with endpoint `"m.example.com"` (no port separator). -/
theorem mtls_host_rewrite_witness :
    ("m.example.com" : String) ≠ "" ∧
    ({ host := "m.example.com:443", credentials := some ⟨1⟩,
       grpc_channel := some (Channel.created ⟨"m.example.com:443", some ⟨1⟩,
         none, some SslCreds.adc, AUTH_SCOPES, none⟩),
       stubs := [] } : TransportState).host
      = (if containsColon "m.example.com" then "m.example.com"
         else "m.example.com" ++ ":443") ∧
    ∃ cfg,
      ({ host := "m.example.com:443", credentials := some ⟨1⟩,
         grpc_channel := some (Channel.created ⟨"m.example.com:443", some ⟨1⟩,
           none, some SslCreds.adc, AUTH_SCOPES, none⟩),
         stubs := [] } : TransportState).grpc_channel
        = some (Channel.created cfg) ∧
      cfg.host = (if containsColon "m.example.com" then "m.example.com"
         else "m.example.com" ++ ":443") :=
  have h := mtls_host_rewrite "h" (.credObj ⟨1⟩) none none none none probeEnv
    "m.example.com"
    { host := "m.example.com:443", credentials := some ⟨1⟩,
      grpc_channel := some (Channel.created ⟨"m.example.com:443", some ⟨1⟩,
        none, some SslCreds.adc, AUTH_SCOPES, none⟩), stubs := [] }
    ⟨[], 1, 0⟩ (by decide) rfl
  ⟨by decide, h.1, h.2⟩

/-- Applying the Python `or`-defaulting twice is the same as applying it once
(the default scope list is nonempty). -/
theorem pyOr_pyOr (scopes : Option (List String)) :
    pyOr (some (pyOr scopes AUTH_SCOPES)) AUTH_SCOPES = pyOr scopes AUTH_SCOPES := by
  cases scopes with
  | none => rfl
  | some l =>
      cases l with
      | nil => rfl
      | cons a as => rfl

/-- **C6** (counterexample): the eagerly constructed mutual-TLS channel and the
lazily constructed channel do not have the same configuration — with a quota
project set, the eager channel records it (and carries SSL credentials) while
the lazy channel drops both. -/
theorem eager_lazy_config_differ :
    (eagerConfig "h" ⟨1⟩ none none (some "q") "m.example.com" probeEnv).isSome = true ∧
    (lazyConfig "h" ⟨1⟩ none (some "q") probeEnv).isSome = true ∧
    eagerConfig "h" ⟨1⟩ none none (some "q") "m.example.com" probeEnv
      ≠ lazyConfig "h" ⟨1⟩ none (some "q") probeEnv := by
  refine ⟨by decide, by decide, by decide⟩

/-- **C6** (amended): when no channel is injected, the eager (mtls-branch)
channel and the lazy (`grpc_channel`-property) channel are both produced by the
same construction routine (`create_channel`), but with different effective
arguments — the lazy path passes only the stored host and credentials.  With
explicit credentials and no credentials file, both channels carry the same
credentials, and their scope lists agree whenever the caller requested no
scopes (both default); but the lazy channel always has no SSL credentials and
no quota project even when the eager channel does, so the configurations are
not in general the same. -/
theorem eager_lazy_channel_configs (host : String) (c : Cred)
    (scopes : Option (List String)) (cert : Option (String × String))
    (quota : Option String) (env : Env) (e : String) (hne : e ≠ "") :
    eagerConfig host c scopes cert quota e env
      = some { host := if containsColon e then e else e ++ ":443",
               credentials := some c, credentials_file := none,
               ssl_credentials := some (match cert with
                 | some p => SslCreds.fromCert p.1 p.2
                 | none => SslCreds.adc),
               scopes := pyOr scopes AUTH_SCOPES, quota_project_id := quota } ∧
    lazyConfig host c scopes quota env
      = some { host := host, credentials := some c, credentials_file := none,
               ssl_credentials := none, scopes := AUTH_SCOPES,
               quota_project_id := none } := by
  constructor
  · cases cert with
    | none =>
        simp [eagerConfig, transportInit, pyStr, hne, create_channel,
          grpcHelpersCreateChannel, CredArg.isTruthy, baseInit, pyOr_pyOr]
    | some p =>
        obtain ⟨crt, key⟩ := p
        simp [eagerConfig, transportInit, pyStr, hne, create_channel,
          grpcHelpersCreateChannel, CredArg.isTruthy, baseInit, pyOr_pyOr]
  · simp [lazyConfig, transportInit, pyStr, baseInit, grpcChannelProp,
      create_channel, grpcHelpersCreateChannel, credArgOfOpt,
      CredArg.isTruthy, pyOr]

/-- Witness for `eager_lazy_channel_configs`: the concrete endpoint
`"m.example.com"` with a quota project and no certificate source. -/
theorem eager_lazy_channel_configs_witness :
    ("m.example.com" : String) ≠ "" ∧
    eagerConfig "h" ⟨1⟩ none none (some "q") "m.example.com" probeEnv
      = some { host := if containsColon "m.example.com" then "m.example.com"
                 else "m.example.com" ++ ":443",
               credentials := some ⟨1⟩, credentials_file := none,
               ssl_credentials := some SslCreds.adc,
               scopes := pyOr none AUTH_SCOPES, quota_project_id := some "q" } ∧
    lazyConfig "h" ⟨1⟩ none (some "q") probeEnv
      = some { host := "h", credentials := some ⟨1⟩, credentials_file := none,
               ssl_credentials := none, scopes := AUTH_SCOPES,
               quota_project_id := none } :=
  have h := eager_lazy_channel_configs "h" ⟨1⟩ none none (some "q") probeEnv
    "m.example.com" (by decide)
  ⟨by decide, h.1, h.2⟩

/-- **C7** (counterexample): with an api_mtls_endpoint in effect and no
explicit credentials, ambient discovery is *not* constrained to the caller's
requested scope list — the caller requested `["scope-a"]` but `auth.default`
was invoked with the default scope list. -/
theorem mtls_discovery_ignores_caller_scopes :
    (transportInit "h" .noneArg none (some ["scope-a"]) none
        (some "m.example.com") none none envAmbient).toOption.map
        (fun p => p.2.authDefault)
      = some [(AUTH_SCOPES, none)] ∧
    AUTH_SCOPES ≠ ["scope-a"] := by
  refine ⟨rfl, by decide⟩

/-- **C7** (amended): for every construction with neither explicit credentials
nor a credentials file and no injected channel, credential resolution falls
back to ambient default discovery and fails with an authentication error
(`DefaultCredentialsError`) when no ambient credentials are discoverable;
on success, discovery was invoked exactly once, with the caller's requested
scope list (default scope list only when the caller requested none) in the
plain branch, but always with the default scope list when a (truthy)
api_mtls_endpoint is supplied; the resolved credentials are the ambient ones. -/
theorem ambient_discovery_scopes (host : String) (scopes : Option (List String))
    (cert : Option (String × String)) (quota : Option String)
    (mtls : Option String) (env : Env) :
    (env.ambient = none →
      transportInit host .noneArg none scopes none mtls cert quota env
        = .error .defaultCredentialsError) ∧
    (∀ st tr, transportInit host .noneArg none scopes none mtls cert quota env
        = .ok (st, tr) →
      tr.authDefault
        = [((if (pyStr mtls).isSome then AUTH_SCOPES else pyOr scopes AUTH_SCOPES),
            quota)] ∧
      st.credentials = env.ambient) := by
  constructor
  · intro ha
    cases hm : pyStr mtls with
    | none => simp [transportInit, hm, baseInit, authDefault, ha]
    | some e => simp [transportInit, hm, authDefault, ha]
  · intro st tr h
    cases hm : pyStr mtls with
    | none =>
        cases ha : env.ambient with
        | none => simp [transportInit, hm, baseInit, authDefault, ha] at h
        | some c0 =>
            simp only [transportInit, hm, baseInit, authDefault, ha] at h
            simp only [Except.ok.injEq, Prod.mk.injEq] at h
            obtain ⟨h1, h2⟩ := h
            subst h1; subst h2
            simp [hm, ha]
    | some e =>
        cases ha : env.ambient with
        | none => simp [transportInit, hm, authDefault, ha] at h
        | some c0 =>
            cases cert with
            | none =>
                simp [transportInit, hm, authDefault, ha, create_channel,
                  grpcHelpersCreateChannel, CredArg.isTruthy, baseInit,
                  Trace.add, Trace.empty] at h
                obtain ⟨h1, h2⟩ := h
                subst h1; subst h2
                simp [hm]
            | some p =>
                obtain ⟨crt, key⟩ := p
                simp [transportInit, hm, authDefault, ha, create_channel,
                  grpcHelpersCreateChannel, CredArg.isTruthy, baseInit,
                  Trace.add, Trace.empty] at h
                obtain ⟨h1, h2⟩ := h
                subst h1; subst h2
                simp [hm]

/-- Witness for `ambient_discovery_scopes`: with no discoverable ambient
credentials construction fails with the authentication error, and with
ambient credentials available the single discovery call used the default
scope list (no scopes were requested). -/
theorem ambient_discovery_scopes_witness :
    probeEnv.ambient = none ∧
    transportInit "h" .noneArg none none none none none none probeEnv
      = .error .defaultCredentialsError ∧
    ({ authDefault := [(AUTH_SCOPES, none)], createChannelCalls := 0,
       certSourceCalls := 0 } : Trace).authDefault
      = [((if (pyStr none).isSome then AUTH_SCOPES else pyOr none AUTH_SCOPES),
          none)] ∧
    ({ host := "h", credentials := some ⟨9⟩, grpc_channel := none,
       stubs := [] } : TransportState).credentials = envAmbient.ambient :=
  ⟨rfl, (ambient_discovery_scopes "h" none none none none probeEnv).1 rfl,
    (ambient_discovery_scopes "h" none none none none envAmbient).2
      { host := "h", credentials := some ⟨9⟩, grpc_channel := none, stubs := [] }
      { authDefault := [(AUTH_SCOPES, none)], createChannelCalls := 0,
        certSourceCalls := 0 } rfl⟩
